import Mathlib

/-!
Shallow embedding of the DRChoirBot Telegram bot (src/riri.py) and proofs
about its session activity gate, rate limiter, response complexity
classifier and completion orchestrator.

Conventions of the embedding:
* Timestamps are integers (seconds); `datetime.now() - timedelta(hours=1)`
  becomes `now - 3600`.
* Python strings become Lean `String`; the matching helpers below mirror
  the Python operations `lower`, `strip`, `startswith`, `endswith` and
  substring containment (`in`) character by character over ASCII text.
* The two external network calls of `generate_response` (the Groq chat
  completion and its truncation retry) are passed in as oracle values of
  type `Except Unit String`: `Except.error` models any exception raised by
  the call, `Except.ok c` models a call whose message content is `c`.
* Telegram-level facts (is the message a reply to the bot, the bot
  username) are explicit parameters of `handle_message`.
* A message with no text (`if not message.text`) is modelled as the empty
  string, on which the handler returns immediately.
-/

namespace DRChoirBot

/-- ASCII lowercasing of one character, mirroring Python `str.lower` on the
ASCII range used by the phrase tables. -/
def lowerChar (c : Char) : Char :=
  if 65 ≤ c.toNat ∧ c.toNat ≤ 90 then Char.ofNat (c.toNat + 32) else c

/-- Python `str.strip` whitespace set (space, tab, newline, carriage
return, vertical tab, form feed). -/
def isPySpace (c : Char) : Bool :=
  c.toNat = 32 || c.toNat = 9 || c.toNat = 10 || c.toNat = 13 ||
  c.toNat = 11 || c.toNat = 12

/-- Strip leading and trailing whitespace from a character list
(Python `str.strip`). -/
def trimList (l : List Char) : List Char :=
  ((l.dropWhile isPySpace).reverse.dropWhile isPySpace).reverse

/-- `startsWithList sub s` is Python `s.startswith(sub)` on char lists. -/
def startsWithList : List Char → List Char → Bool
  | [], _ => true
  | _ :: _, [] => false
  | a :: as, b :: bs => a == b && startsWithList as bs

/-- `endsWithList sub s` is Python `s.endswith(sub)` on char lists. -/
def endsWithList (sub s : List Char) : Bool :=
  startsWithList sub.reverse s.reverse

/-- `containsSub sub s` is Python `sub in s` (substring containment). -/
def containsSub (sub : List Char) : List Char → Bool
  | [] => sub.isEmpty
  | c :: rest => startsWithList sub (c :: rest) || containsSub sub rest

/-- Substring containment on strings: Python `sub in s`. -/
def strContains (s sub : String) : Bool :=
  containsSub sub.data s.data

/-- `message_text.lower().strip()` as a character list. -/
def lowerStrip (s : String) : List Char :=
  trimList (s.data.map lowerChar)

/-- `message.lower()` as a character list (no strip), as used by the
complexity classifier. -/
def lowerList (s : String) : List Char :=
  s.data.map lowerChar

/-- `content.strip()` as a string. -/
def stripStr (s : String) : String :=
  String.mk (trimList s.data)

/-- The `sleep_words` table of `check_sleep_command`. -/
def sleep_words : List String :=
  ["thanks", "thank you", "bye", "goodbye", "good bye", "see you",
   "sleep", "rest", "goodnight", "good night", "that\x27s all",
   "thats all", "enough", "done", "finish", "go to sleep",
   "sleep now", "rest now", "thanks riri", "bye riri",
   "goodnight riri", "good night riri", "shh", "shhh", "quiet",
   "silence", "hush", "zip it", "stop talking", "be quiet", "shut up",
   "enough riri", "stop riri", "quiet riri"]

/-- The per-word test of `check_sleep_command` and `check_wake_command`:
`word == message_lower or message_lower.startswith(word + ' ') or
message_lower.endswith(' ' + word) or word in message_lower`. -/
def matchesWord (m : List Char) (word : String) : Bool :=
  word.data == m || startsWithList (word.data ++ [' ']) m ||
  endsWithList ([' '] ++ word.data) m || containsSub word.data m

/-- `check_sleep_command`: does the lowered, stripped message match any
sleep word. -/
def check_sleep_command (text : String) : Bool :=
  sleep_words.any (matchesWord (lowerStrip text))

/-- The `wake_words` table of `check_wake_command`. -/
def wake_words : List String :=
  ["wake up", "wake", "hello", "hi", "hey", "good morning", "riri",
   "assistant", "choir assistant", "baby ri", "rena", "start",
   "begin", "continue", "come back", "wake up riri", "hello riri",
   "hi riri", "hey riri", "good morning riri"]

/-- `check_wake_command`: does the lowered, stripped message match any
wake word. -/
def check_wake_command (text : String) : Bool :=
  wake_words.any (matchesWord (lowerStrip text))

/-- The `complex_keywords` table of `determine_response_complexity`. -/
def complex_keywords : List String :=
  ["how to", "explain", "teach", "help me understand", "what is",
   "technique", "method", "practice", "exercise", "theory",
   "chord progression", "vocal", "singing", "music theory",
   "scripture", "bible", "steps", "guide", "training"]

/-- The `simple_keywords` table of `determine_response_complexity`. -/
def simple_keywords : List String :=
  ["hello", "hi", "hey", "thanks", "okay", "got it", "yes", "no",
   "good", "great", "nice", "cool", "awesome"]

/-- `determine_response_complexity`: complex keywords first, then simple
keywords, else medium. -/
def determine_response_complexity (message : String) : String :=
  if complex_keywords.any (fun k => containsSub k.data (lowerList message)) then
    "complex"
  else if simple_keywords.any (fun k => containsSub k.data (lowerList message)) then
    "simple"
  else
    "medium"

/-- `get_token_limit`: group chats are negative chat ids. -/
def get_token_limit (chat_id : Int) (complexity : String) : Nat :=
  if complexity = "simple" then (if chat_id < 0 then 150 else 200)
  else if complexity = "medium" then (if chat_id < 0 then 300 else 500)
  else (if chat_id < 0 then 600 else 1000)

/-- `check_rate_limit` as a pure function of one chat tracker list: prune
to instants strictly inside the trailing hour, refuse at 100, otherwise
record `now`.  Returns (allowed, new tracker list). -/
def check_rate_limit (history : List Int) (now : Int) : Bool × List Int :=
  if 100 ≤ (history.filter (fun t => decide (now - 3600 < t))).length then
    (false, history.filter (fun t => decide (now - 3600 < t)))
  else
    (true, history.filter (fun t => decide (now - 3600 < t)) ++ [now])

/-- Run a sequence of rate-limiter checks at the given instants, threading
the tracker list; collects the returned booleans. -/
def runCalls : List Int → List Int → List Bool × List Int
  | [], l => ([], l)
  | t :: ts, l =>
    let r := check_rate_limit l t
    let rest := runCalls ts r.2
    (r.1 :: rest.1, rest.2)

/-- 101 calls at seconds 0,1,...,100, all inside one rolling hour. -/
def hourCalls : List Int :=
  (List.range 101).map (fun n => (n : Int))

/-- The fixed apology returned by `generate_response` when the external
completion interface fails at either attempt. -/
def fallback_message : String :=
  "Sorry, I\x27m having trouble responding right now. Please try again in a moment. If the problem persists, please contact Sir Aisosa."

/-- `generated_response.endswith(('.', '!', '?', ':'))`. -/
def endsWithTerminator (g : List Char) : Bool :=
  endsWithList ['.'] g || endsWithList ['!'] g ||
  endsWithList ['?'] g || endsWithList [':'] g

/-- The truncation heuristic of `generate_response`: the stripped text
ends with an ellipsis, or does not end with a terminator while being
longer than 100 characters (Python `and` binds tighter than `or`). -/
def looksTruncated (g : String) : Bool :=
  endsWithList ['.', '.', '.'] g.data ||
  (!(endsWithTerminator g.data) && decide (100 < g.data.length))

/-- Result of `generate_response`: the returned text together with the
`max_tokens` budget of every external completion call that was issued, in
order. -/
structure GenResult where
  text : String
  budgets : List Nat
deriving DecidableEq

/-- `generate_response`, with the two possible external completion calls
given as oracles.  The first call is always issued; the retry is issued
only when the first call succeeded and its stripped content looks
truncated, with budget `min(max_tokens * 2, 1500)`.  Any exception turns
into the fixed fallback text.  Prompt assembly (system prompt plus stored
context) only feeds the external call and does not affect the returned
text, so it is not modelled. -/
def generate_response (first retry : Except Unit String) (message : String)
    (chat_id : Int) : GenResult :=
  match first with
  | Except.error _ =>
    ⟨fallback_message, [get_token_limit chat_id (determine_response_complexity message)]⟩
  | Except.ok content =>
    if looksTruncated (stripStr content) then
      match retry with
      | Except.error _ =>
        ⟨fallback_message,
         [get_token_limit chat_id (determine_response_complexity message),
          min (get_token_limit chat_id (determine_response_complexity message) * 2) 1500]⟩
      | Except.ok rc =>
        ⟨stripStr rc,
         [get_token_limit chat_id (determine_response_complexity message),
          min (get_token_limit chat_id (determine_response_complexity message) * 2) 1500]⟩
    else
      ⟨stripStr content, [get_token_limit chat_id (determine_response_complexity message)]⟩

/-- One row of the `conversations` table, as written by
`save_conversation` (the timestamp column is filled in by the database
default and carries no logic). -/
structure ConversationTurn where
  chat_id : Int
  user_id : Int
  username : String
  message : String
  response : String
deriving DecidableEq

/-- The mutable per-process state of the bot: `self.request_tracker`,
`self.sleeping_chats` (both dictionaries with an implicit default) and the
`conversations` table. -/
structure BotState where
  request_tracker : Int → List Int
  sleeping_chats : Int → Bool
  conversations : List ConversationTurn

/-- `self.sleeping_chats[chat_id] = b`. -/
def setSleeping (st : BotState) (chat_id : Int) (b : Bool) : BotState :=
  { st with sleeping_chats := fun c => if c = chat_id then b else st.sleeping_chats c }

/-- `self.request_tracker[chat_id] = l`. -/
def setTracker (st : BotState) (chat_id : Int) (l : List Int) : BotState :=
  { st with request_tracker := fun c => if c = chat_id then l else st.request_tracker c }

/-- `save_conversation`: append one row to the conversations table. -/
def appendTurn (st : BotState) (t : ConversationTurn) : BotState :=
  { st with conversations := st.conversations ++ [t] }

/-- The fixed wake acknowledgment sent on the Asleep to Awake transition. -/
def wake_ack : String := "Hello. What\x27s up?"

/-- The message sent when the rate limiter refuses a request. -/
def rate_limit_notice : String :=
  "⏰ Chat rate limit reached. Please wait a moment before asking again."

/-- Everything observable about one run of `handle_message`: the new bot
state, the texts sent to the chat (in order), and whether the typing
indicator, the rate limiter and the external model were reached. -/
structure HandleResult where
  state : BotState
  replies : List String
  typingSent : Bool
  rateLimiterCalled : Bool
  modelCalled : Bool

/-- The group/private response decision of `handle_message`: private chats
always respond; group chats respond iff the message replies to the bot,
mentions `@botusername` (with a non-empty bot username), or matches a wake
word. -/
def should_respond (chat_id : Int) (text : String) (is_reply_to_bot : Bool)
    (bot_username : String) : Bool :=
  if 0 < chat_id then true
  else
    is_reply_to_bot ||
    (!(bot_username == "") && strContains text ("@" ++ bot_username)) ||
    check_wake_command text

/-- `handle_message`, one inbound text message end to end.  `now` is the
instant used by the rate limiter; `first` and `retry` are the oracles for
the two possible external completion calls. -/
def handle_message (st : BotState) (chat_id user_id : Int)
    (username text : String) (is_reply_to_bot : Bool) (bot_username : String)
    (now : Int) (first retry : Except Unit String) : HandleResult :=
  if text = "" then ⟨st, [], false, false, false⟩
  else if check_sleep_command text then
    ⟨setSleeping st chat_id true, [], false, false, false⟩
  else if check_wake_command text && st.sleeping_chats chat_id then
    ⟨setSleeping st chat_id false, [wake_ack], false, false, false⟩
  else if st.sleeping_chats chat_id then
    ⟨st, [], false, false, false⟩
  else if should_respond chat_id text is_reply_to_bot bot_username = false then
    ⟨st, [], false, false, false⟩
  else if (check_rate_limit (st.request_tracker chat_id) now).1 = false then
    ⟨setTracker st chat_id (check_rate_limit (st.request_tracker chat_id) now).2,
     [rate_limit_notice], false, true, false⟩
  else
    ⟨appendTurn
       (setTracker st chat_id (check_rate_limit (st.request_tracker chat_id) now).2)
       ⟨chat_id, user_id, username, text, (generate_response first retry text chat_id).text⟩,
     [(generate_response first retry text chat_id).text], true, true, true⟩

set_option maxRecDepth 100000

/-- An empty message matches no sleep word: every table entry is a
non-empty phrase, so all four tests fail on the empty character list. -/
theorem check_sleep_command_empty : check_sleep_command "" = false := by decide

/-- An empty message matches no wake word. -/
theorem check_wake_command_empty : check_wake_command "" = false := by decide

/-- C1: a rate limiter check at time `now` first prunes the recorded
instants that fall outside the trailing hour; if 100 or more remain the
call returns false and appends nothing, otherwise it appends `now` and
returns true; hence 101 calls inside one rolling hour yield 100
allowances and then a refusal, and the refusal lifts once the earliest
recorded instant has aged past one hour. -/
theorem check_rate_limit_spec :
    (∀ (l : List Int) (now : Int),
        100 ≤ (l.filter (fun t => decide (now - 3600 < t))).length →
        check_rate_limit l now =
          (false, l.filter (fun t => decide (now - 3600 < t)))) ∧
    (∀ (l : List Int) (now : Int),
        (l.filter (fun t => decide (now - 3600 < t))).length < 100 →
        check_rate_limit l now =
          (true, l.filter (fun t => decide (now - 3600 < t)) ++ [now])) ∧
    (∀ (l : List Int) (now t : Int), t ≤ now - 3600 →
        t ∉ (check_rate_limit l now).2) ∧
    (runCalls hourCalls []).1 = List.replicate 100 true ++ [false] ∧
    (check_rate_limit (runCalls hourCalls []).2 3601).1 = true := by
  refine ⟨?_, ?_, ?_, by decide, by decide⟩
  · intro l now h
    unfold check_rate_limit
    rw [if_pos h]
  · intro l now h
    unfold check_rate_limit
    rw [if_neg (by omega)]
  · intro l now t ht
    unfold check_rate_limit
    split_ifs with h
    · intro hmem
      have hdec := (List.mem_filter.mp hmem).2
      have := of_decide_eq_true hdec
      omega
    · intro hmem
      rcases List.mem_append.mp hmem with h1 | h2
      · have hdec := (List.mem_filter.mp h1).2
        have := of_decide_eq_true hdec
        omega
      · have : t = now := List.mem_singleton.mp h2
        omega

/-- Witness for C1: the first call on an empty tracker is allowed and
records the instant. -/
theorem check_rate_limit_spec_witness :
    check_rate_limit [] 0 = (true, [0]) :=
  check_rate_limit_spec.2.1 [] 0 (by decide)

/-- C2: a message matching a sleep phrase sets the sleeping flag of its
chat and the handler returns at once: no reply of any kind, no rate
limiter call, no model call, and neither the conversations table nor the
rate tracker changes. -/
theorem sleep_phrase_silent (st : BotState) (chat_id user_id : Int)
    (username text : String) (is_reply_to_bot : Bool) (bot_username : String)
    (now : Int) (first retry : Except Unit String)
    (h : check_sleep_command text = true) :
    handle_message st chat_id user_id username text is_reply_to_bot bot_username
        now first retry =
      ⟨setSleeping st chat_id true, [], false, false, false⟩ ∧
    (setSleeping st chat_id true).sleeping_chats chat_id = true ∧
    (setSleeping st chat_id true).conversations = st.conversations ∧
    (setSleeping st chat_id true).request_tracker = st.request_tracker := by
  have hne : text ≠ "" := by
    intro h0
    rw [h0] at h
    exact absurd h (by decide)
  refine ⟨?_, ?_, rfl, rfl⟩
  · unfold handle_message
    rw [if_neg hne, if_pos h]
  · simp [setSleeping]

/-- Witness for C2 at the concrete sleep phrase "thanks". -/
theorem sleep_phrase_silent_witness :
    handle_message ⟨fun _ => [], fun _ => false, []⟩ 5 7 "u" "thanks" false "" 0
        (Except.ok "x") (Except.ok "y") =
      ⟨setSleeping ⟨fun _ => [], fun _ => false, []⟩ 5 true, [], false, false, false⟩ ∧
    (setSleeping ⟨fun _ => [], fun _ => false, []⟩ 5 true).sleeping_chats 5 = true ∧
    (setSleeping ⟨fun _ => [], fun _ => false, []⟩ 5 true).conversations = [] ∧
    (setSleeping ⟨fun _ => [], fun _ => false, []⟩ 5 true).request_tracker =
      fun _ => [] :=
  sleep_phrase_silent ⟨fun _ => [], fun _ => false, []⟩ 5 7 "u" "thanks" false ""
    0 (Except.ok "x") (Except.ok "y") (by decide)

/-- C10: the sleep check runs before the wake check, so a message matching
both a sleep and a wake phrase puts the chat to sleep and produces no
outbound text, whatever the prior sleeping state was. -/
theorem sleep_precedes_wake (st : BotState) (chat_id user_id : Int)
    (username text : String) (is_reply_to_bot : Bool) (bot_username : String)
    (now : Int) (first retry : Except Unit String)
    (hs : check_sleep_command text = true)
    (hw : check_wake_command text = true) :
    handle_message st chat_id user_id username text is_reply_to_bot bot_username
        now first retry =
      ⟨setSleeping st chat_id true, [], false, false, false⟩ ∧
    (setSleeping st chat_id true).sleeping_chats chat_id = true := by
  have hne : text ≠ "" := by
    intro h0
    rw [h0] at hs
    exact absurd hs (by decide)
  refine ⟨?_, ?_⟩
  · unfold handle_message
    rw [if_neg hne, if_pos hs]
  · simp [setSleeping]

/-- Witness for C10: "restart" contains the sleep word "rest" and the wake
word "start"; sent to a sleeping chat it keeps the chat asleep silently. -/
theorem sleep_precedes_wake_witness :
    handle_message ⟨fun _ => [], fun _ => true, []⟩ 1 7 "u" "restart" false "" 0
        (Except.ok "x") (Except.ok "y") =
      ⟨setSleeping ⟨fun _ => [], fun _ => true, []⟩ 1 true, [], false, false, false⟩ ∧
    (setSleeping ⟨fun _ => [], fun _ => true, []⟩ 1 true).sleeping_chats 1 = true :=
  sleep_precedes_wake ⟨fun _ => [], fun _ => true, []⟩ 1 7 "u" "restart" false ""
    0 (Except.ok "x") (Except.ok "y") (by decide) (by decide)

/-- C5: while a chat is asleep, any message not matching a wake phrase is
handled silently: no reply, no conversations write, no rate tracker
change, no model call, no rate limiter call. -/
theorem asleep_nonwake_silent (st : BotState) (chat_id user_id : Int)
    (username text : String) (is_reply_to_bot : Bool) (bot_username : String)
    (now : Int) (first retry : Except Unit String)
    (hAsleep : st.sleeping_chats chat_id = true)
    (hw : check_wake_command text = false) :
    (handle_message st chat_id user_id username text is_reply_to_bot bot_username
        now first retry).replies = [] ∧
    (handle_message st chat_id user_id username text is_reply_to_bot bot_username
        now first retry).state.conversations = st.conversations ∧
    (handle_message st chat_id user_id username text is_reply_to_bot bot_username
        now first retry).state.request_tracker = st.request_tracker ∧
    (handle_message st chat_id user_id username text is_reply_to_bot bot_username
        now first retry).modelCalled = false ∧
    (handle_message st chat_id user_id username text is_reply_to_bot bot_username
        now first retry).rateLimiterCalled = false := by
  unfold handle_message
  split_ifs with h1 h2 h3
  · exact ⟨rfl, rfl, rfl, rfl, rfl⟩
  · exact ⟨rfl, rfl, rfl, rfl, rfl⟩
  · simp [hw] at h3
  · exact ⟨rfl, rfl, rfl, rfl, rfl⟩

/-- Witness for C5: a sleeping chat stays silent on the non-wake message
"zzz". -/
theorem asleep_nonwake_silent_witness :
    (handle_message ⟨fun _ => [], fun _ => true, []⟩ 1 7 "u" "zzz" false "" 0
        (Except.ok "x") (Except.ok "y")).replies = [] ∧
    (handle_message ⟨fun _ => [], fun _ => true, []⟩ 1 7 "u" "zzz" false "" 0
        (Except.ok "x") (Except.ok "y")).state.conversations = [] ∧
    ((handle_message ⟨fun _ => [], fun _ => true, []⟩ 1 7 "u" "zzz" false "" 0
        (Except.ok "x") (Except.ok "y")).state.request_tracker = fun _ => []) ∧
    (handle_message ⟨fun _ => [], fun _ => true, []⟩ 1 7 "u" "zzz" false "" 0
        (Except.ok "x") (Except.ok "y")).modelCalled = false ∧
    (handle_message ⟨fun _ => [], fun _ => true, []⟩ 1 7 "u" "zzz" false "" 0
        (Except.ok "x") (Except.ok "y")).rateLimiterCalled = false :=
  asleep_nonwake_silent ⟨fun _ => [], fun _ => true, []⟩ 1 7 "u" "zzz" false "" 0
    (Except.ok "x") (Except.ok "y") rfl (by decide)

/-- C3 counterexample: "restart" matches a wake phrase, yet sent to a
sleeping chat it leaves the chat asleep and sends nothing, because the
sleep check runs first and "restart" also contains the sleep word
"rest". -/
theorem wake_phrase_asleep_cex :
    check_wake_command "restart" = true ∧
    (handle_message ⟨fun _ => [], fun _ => true, []⟩ 1 7 "u" "restart" false "" 0
        (Except.ok "x") (Except.ok "y")).state.sleeping_chats 1 = true ∧
    (handle_message ⟨fun _ => [], fun _ => true, []⟩ 1 7 "u" "restart" false "" 0
        (Except.ok "x") (Except.ok "y")).replies = [] :=
  ⟨by decide, by decide, by decide⟩

/-- C3 amended: while a chat is asleep, a message that matches a wake
phrase and does not also match a sleep phrase wakes the chat and sends
exactly the fixed acknowledgment; the message is not forwarded to the
model and no turn is stored. -/
theorem wake_phrase_acknowledged (st : BotState) (chat_id user_id : Int)
    (username text : String) (is_reply_to_bot : Bool) (bot_username : String)
    (now : Int) (first retry : Except Unit String)
    (hAsleep : st.sleeping_chats chat_id = true)
    (hw : check_wake_command text = true)
    (hs : check_sleep_command text = false) :
    handle_message st chat_id user_id username text is_reply_to_bot bot_username
        now first retry =
      ⟨setSleeping st chat_id false, [wake_ack], false, false, false⟩ ∧
    (setSleeping st chat_id false).sleeping_chats chat_id = false ∧
    (setSleeping st chat_id false).conversations = st.conversations ∧
    wake_ack = "Hello. What\x27s up?" := by
  have hne : text ≠ "" := by
    intro h0
    rw [h0] at hw
    exact absurd hw (by decide)
  refine ⟨?_, ?_, rfl, rfl⟩
  · unfold handle_message
    rw [if_neg hne, if_neg (by simp [hs]), if_pos (by simp [hw, hAsleep])]
  · simp [setSleeping]

/-- Witness for the amended C3 at the concrete wake phrase "hello". -/
theorem wake_phrase_acknowledged_witness :
    handle_message ⟨fun _ => [], fun _ => true, []⟩ 1 7 "u" "hello" false "" 0
        (Except.ok "x") (Except.ok "y") =
      ⟨setSleeping ⟨fun _ => [], fun _ => true, []⟩ 1 false, [wake_ack], false,
       false, false⟩ ∧
    (setSleeping ⟨fun _ => [], fun _ => true, []⟩ 1 false).sleeping_chats 1 = false ∧
    (setSleeping ⟨fun _ => [], fun _ => true, []⟩ 1 false).conversations = [] ∧
    wake_ack = "Hello. What\x27s up?" :=
  wake_phrase_acknowledged ⟨fun _ => [], fun _ => true, []⟩ 1 7 "u" "hello" false
    "" 0 (Except.ok "x") (Except.ok "y") rfl (by decide) (by decide)

/-- C4: while awake on a message matching neither phrase table, a private
chat (positive id) always proceeds to the rate limiter; a group chat
(negative id) proceeds iff the message replies to the bot, mentions the
bot handle, or matches a wake phrase; when the decision is negative the
handler returns with the state untouched, no reply and no store write. -/
theorem should_respond_spec (st : BotState) (chat_id user_id : Int)
    (username text : String) (is_reply_to_bot : Bool) (bot_username : String)
    (now : Int) (first retry : Except Unit String)
    (hAwake : st.sleeping_chats chat_id = false)
    (hs : check_sleep_command text = false)
    (hw : check_wake_command text = false)
    (hne : text ≠ "") :
    (0 < chat_id →
      should_respond chat_id text is_reply_to_bot bot_username = true ∧
      (handle_message st chat_id user_id username text is_reply_to_bot
          bot_username now first retry).rateLimiterCalled = true) ∧
    (chat_id < 0 →
      (should_respond chat_id text is_reply_to_bot bot_username = true ↔
        (is_reply_to_bot = true ∨
         (!(bot_username == "") && strContains text ("@" ++ bot_username)) = true ∨
         check_wake_command text = true))) ∧
    (should_respond chat_id text is_reply_to_bot bot_username = false →
      handle_message st chat_id user_id username text is_reply_to_bot
          bot_username now first retry = ⟨st, [], false, false, false⟩) := by
  refine ⟨?_, ?_, ?_⟩
  · intro hpos
    have hsr : should_respond chat_id text is_reply_to_bot bot_username = true := by
      unfold should_respond
      rw [if_pos hpos]
    refine ⟨hsr, ?_⟩
    unfold handle_message
    rw [if_neg hne, if_neg (by simp [hs]), if_neg (by simp [hw]),
        if_neg (by simp [hAwake]), if_neg (by simp [hsr])]
    split_ifs <;> rfl
  · intro hneg
    unfold should_respond
    rw [if_neg (by omega)]
    simp only [Bool.or_eq_true, Bool.and_eq_true, Bool.not_eq_true', beq_eq_false_iff_ne,
      ne_eq, or_assoc]
  · intro hsrF
    unfold handle_message
    rw [if_neg hne, if_neg (by simp [hs]), if_neg (by simp [hw]),
        if_neg (by simp [hAwake]), if_pos hsrF]

/-- Witness for C4 in a private chat on the non-phrase message "zzz". -/
theorem should_respond_spec_witness :
    ((0 : Int) < 5 →
      should_respond 5 "zzz" false "" = true ∧
      (handle_message ⟨fun _ => [], fun _ => false, []⟩ 5 7 "u" "zzz" false "" 0
          (Except.ok "x") (Except.ok "y")).rateLimiterCalled = true) ∧
    ((5 : Int) < 0 →
      (should_respond 5 "zzz" false "" = true ↔
        (false = true ∨
         (!(("" : String) == "") && strContains "zzz" ("@" ++ "")) = true ∨
         check_wake_command "zzz" = true))) ∧
    (should_respond 5 "zzz" false "" = false →
      handle_message ⟨fun _ => [], fun _ => false, []⟩ 5 7 "u" "zzz" false "" 0
          (Except.ok "x") (Except.ok "y") =
        ⟨⟨fun _ => [], fun _ => false, []⟩, [], false, false, false⟩) :=
  should_respond_spec ⟨fun _ => [], fun _ => false, []⟩ 5 7 "u" "zzz" false "" 0
    (Except.ok "x") (Except.ok "y") rfl (by decide) (by decide) (by decide)

/-- C6: on a successful first completion, the truncation heuristic (ends
with an ellipsis, or lacks a terminal punctuation mark while longer than
100 characters) triggers exactly one retry whose budget is the doubled
budget capped at 1500, and the stripped retry output is returned whatever
its own shape; otherwise no retry is issued and the first stripped text is
returned. -/
theorem truncation_retry_spec (message : String) (chat_id : Int) (c rc : String) :
    (looksTruncated (stripStr c) = true →
      generate_response (Except.ok c) (Except.ok rc) message chat_id =
        ⟨stripStr rc,
         [get_token_limit chat_id (determine_response_complexity message),
          min (get_token_limit chat_id (determine_response_complexity message) * 2)
            1500]⟩) ∧
    (looksTruncated (stripStr c) = false →
      ∀ r : Except Unit String,
        generate_response (Except.ok c) r message chat_id =
          ⟨stripStr c,
           [get_token_limit chat_id (determine_response_complexity message)]⟩) := by
  constructor
  · intro h
    simp [generate_response, h]
  · intro h r
    cases r with
    | error e => simp [generate_response, h]
    | ok s => simp [generate_response, h]

/-- Witness for C6: "Hmm..." looks truncated, so the retry output
"Still going..." is returned as is with budgets 200 then 400. -/
theorem truncation_retry_spec_witness :
    (looksTruncated (stripStr "Hmm...") = true →
      generate_response (Except.ok "Hmm...") (Except.ok "Still going...") "Hi" 5 =
        ⟨stripStr "Still going...",
         [get_token_limit 5 (determine_response_complexity "Hi"),
          min (get_token_limit 5 (determine_response_complexity "Hi") * 2) 1500]⟩) ∧
    (looksTruncated (stripStr "Hmm...") = false →
      ∀ r : Except Unit String,
        generate_response (Except.ok "Hmm...") r "Hi" 5 =
          ⟨stripStr "Hmm...",
           [get_token_limit 5 (determine_response_complexity "Hi")]⟩) :=
  truncation_retry_spec "Hi" 5 "Hmm..." "Still going..."

/-- C7: the complexity classifier depends only on the lowercased message;
complex keywords are checked before simple ones, any complex hit wins,
then any simple hit, else medium; concrete instances from the spec. -/
theorem classifier_spec :
    (∀ m1 m2 : String, lowerList m1 = lowerList m2 →
      determine_response_complexity m1 = determine_response_complexity m2) ∧
    (∀ m : String,
      complex_keywords.any (fun k => containsSub k.data (lowerList m)) = true →
      determine_response_complexity m = "complex") ∧
    (∀ m : String,
      complex_keywords.any (fun k => containsSub k.data (lowerList m)) = false →
      simple_keywords.any (fun k => containsSub k.data (lowerList m)) = true →
      determine_response_complexity m = "simple") ∧
    (∀ m : String,
      complex_keywords.any (fun k => containsSub k.data (lowerList m)) = false →
      simple_keywords.any (fun k => containsSub k.data (lowerList m)) = false →
      determine_response_complexity m = "medium") ∧
    determine_response_complexity "How to build a vocal warm-up routine" =
      "complex" ∧
    determine_response_complexity "Hi" = "simple" ∧
    determine_response_complexity "zzz" = "medium" ∧
    determine_response_complexity "hello, explain chords" = "complex" := by
  refine ⟨?_, ?_, ?_, ?_, by decide, by decide, by decide, by decide⟩
  · intro m1 m2 h
    unfold determine_response_complexity
    rw [h]
  · intro m h
    unfold determine_response_complexity
    rw [if_pos h]
  · intro m h1 h2
    unfold determine_response_complexity
    rw [if_neg (by simp [h1]), if_pos h2]
  · intro m h1 h2
    unfold determine_response_complexity
    rw [if_neg (by simp [h1]), if_neg (by simp [h2])]

/-- Witness for C7: a message containing a keyword from both tables
classifies as complex. -/
theorem classifier_spec_witness :
    determine_response_complexity "hello, explain chords" = "complex" :=
  classifier_spec.2.1 "hello, explain chords" (by decide)

/-- C8: a failure of the external completion interface at the first
attempt, or at the truncation retry, makes the orchestrator return the
fixed apologetic fallback, and no run ever issues more than two external
calls. -/
theorem completion_failure_fallback (message : String) (chat_id : Int) :
    (∀ r : Except Unit String,
      generate_response (Except.error ()) r message chat_id =
        ⟨fallback_message,
         [get_token_limit chat_id (determine_response_complexity message)]⟩) ∧
    (∀ c : String, looksTruncated (stripStr c) = true →
      generate_response (Except.ok c) (Except.error ()) message chat_id =
        ⟨fallback_message,
         [get_token_limit chat_id (determine_response_complexity message),
          min (get_token_limit chat_id (determine_response_complexity message) * 2)
            1500]⟩) ∧
    (∀ first retry : Except Unit String,
      (generate_response first retry message chat_id).budgets.length ≤ 2) := by
  refine ⟨fun r => rfl, ?_, ?_⟩
  · intro c h
    simp [generate_response, h]
  · intro first retry
    cases first with
    | error e => simp [generate_response]
    | ok c =>
      cases h : looksTruncated (stripStr c) with
      | false => simp [generate_response, h]
      | true =>
        cases retry with
        | error e => simp [generate_response, h]
        | ok rc => simp [generate_response, h]

/-- Witness for C8: a failing retry after a truncated-looking first
answer yields the fallback with two call budgets. -/
theorem completion_failure_fallback_witness :
    generate_response (Except.ok "Hmm...") (Except.error ()) "Hi" 5 =
      ⟨fallback_message,
       [get_token_limit 5 (determine_response_complexity "Hi"),
        min (get_token_limit 5 (determine_response_complexity "Hi") * 2) 1500]⟩ :=
  (completion_failure_fallback "Hi" 5).2.1 "Hmm..." (by decide)

/-- C9 counterexample: with an empty store, an awake private chat, the
non-phrase message "zzz" and a first completion whose content strips to
the empty string, the handler writes a ConversationTurn whose response
field is the empty string. -/
theorem empty_response_written_cex :
    (handle_message ⟨fun _ => [], fun _ => false, []⟩ 1 2 "u" "zzz" false "" 0
        (Except.ok "") (Except.ok "x")).state.conversations =
      [⟨1, 2, "u", "zzz", ""⟩] := by decide

/-- C9 amended: every turn the handler writes carries the inbound text as
its message, which is never empty, and the orchestrator output as its
response; the response can be the empty string only through a successful
completion whose content strips to empty, the failure path storing the
non-empty fixed fallback instead. -/
theorem saved_turn_shape (st : BotState) (chat_id user_id : Int)
    (username text : String) (is_reply_to_bot : Bool) (bot_username : String)
    (now : Int) (first retry : Except Unit String) :
    ((handle_message st chat_id user_id username text is_reply_to_bot
        bot_username now first retry).state.conversations = st.conversations ∨
     ((handle_message st chat_id user_id username text is_reply_to_bot
         bot_username now first retry).state.conversations =
        st.conversations ++
          [⟨chat_id, user_id, username, text,
            (generate_response first retry text chat_id).text⟩] ∧
      text ≠ "")) ∧
    fallback_message ≠ "" := by
  refine ⟨?_, by decide⟩
  unfold handle_message
  split_ifs with h1 h2 h3 h4 h5 h6
  · exact Or.inl rfl
  · exact Or.inl rfl
  · exact Or.inl rfl
  · exact Or.inl rfl
  · exact Or.inl rfl
  · exact Or.inl rfl
  · exact Or.inr ⟨rfl, h1⟩

end DRChoirBot
